import Mathlib

/-!
Verification development for the crypto-market-gateway repository.

The embedding translates the three core components from the source:

- derivation engine: src/api/multi.js, second revision (lines 335-699):
  classifyState, addLeanAndWhy, the rolling-series append in fetchOne,
  and the symbol-count guard of the HTTP handler;
- ingestor: src/api/snapshot.js, processOne (lines 438-499): the
  write-if-absent snapshot store update;
- evaluation engine: src/unnamed/part_003, final revision of
  /api/alert.js (lines 1199-2379): evaluateCriteria, writeLastState,
  edgeRecoCheck, the cooldown gate and the dry-run write discipline.

JavaScript numbers are modelled as rationals, nullable numbers as
Option, JS strings as Lean strings.  Keys of the external key-value
store are the literal strings the source builds.
-/

namespace Gateway

/-- Model of the JS idiom s or dflt applied to strings: the empty string
is falsy and selects the default. -/
def jsStringOr (s dflt : String) : String := if s = "" then dflt else s

/-- Model of reading an optional query or env value for a JS or-chain:
an absent value behaves like the empty string. -/
def optStr : Option String → String
  | some s => s
  | none => ""

/-- Model of String.prototype.toLowerCase for the ASCII strings the
gateway handles. -/
def jsToLower (s : String) : String := String.mk (s.data.map Char.toLower)

namespace Multi

/-- Translation of classifyState (src/api/multi.js lines 401-411).
A null input (failed pctChange) yields the state unknown; otherwise the
four-way sign table on price change and open-interest change is applied
in the order of the source. -/
def classifyState (priceChgPct oiChgPct : Option ℚ) : String :=
  match priceChgPct, oiChgPct with
  | some p, some oi =>
    let pUp : Bool := decide (0 < p)
    let oiUp : Bool := decide (0 < oi)
    if pUp && !oiUp then "shorts closing"
    else if !pUp && !oiUp then "longs closing"
    else if pUp && oiUp then "longs opening"
    else if !pUp && oiUp then "shorts opening"
    else "unknown"
  | _, _ => "unknown"

/-- Result record of addLeanAndWhy: a directional lean label and a
human-readable explanation. -/
structure LeanWhy where
  lean : String
  why : String
deriving DecidableEq

/-- Translation of addLeanAndWhy (src/api/multi.js lines 413-434).
The four classified states map to long or short; everything else is
neutral, with the why text depending on the funding rate sign. -/
def addLeanAndWhy (state : String) (funding_rate : Option ℚ) : LeanWhy :=
  if state = "longs opening" then
    ⟨"long", "Price up while positions grew (buyers adding)."⟩
  else if state = "shorts opening" then
    ⟨"short", "Price down while positions grew (sellers adding)."⟩
  else if state = "shorts closing" then
    ⟨"long", "Price up while positions shrank (shorts exiting pushed up)."⟩
  else if state = "longs closing" then
    ⟨"short", "Price down while positions shrank (longs exiting pushed down)."⟩
  else
    match funding_rate with
    | some fr =>
      if 0 < fr then ⟨"neutral", "Not enough change data yet; funding slightly positive."⟩
      else if fr < 0 then ⟨"neutral", "Not enough change data yet; funding slightly negative."⟩
      else ⟨"neutral", "Not enough change data yet."⟩
    | none => ⟨"neutral", "Not enough change data yet."⟩

/-- One point of the rolling 5m series as appended by fetchOne
(src/api/multi.js line 590): bucket index, timestamp, price, funding
rate (nullable) and open-interest contracts. -/
structure SeriesPoint where
  b : Int
  ts : Int
  p : ℚ
  fr : Option ℚ
  oi : ℚ
deriving DecidableEq

/-- Per-instrument series state held in the key-value store: the list
under series5m and the integer under lastBucket.  A stored lastBucket
that fails Number.isFinite parsing is modelled as none. -/
structure SeriesState where
  series : List SeriesPoint
  lastBucket : Option Int
deriving DecidableEq

/-- Bucket width in milliseconds (src/api/multi.js line 350). -/
def BUCKET_MS : Int := 300000

/-- Retention bound of the rolling series (src/api/multi.js line 351). -/
def SERIES_POINTS_24H : Nat := 288

/-- Translation of the positive-index trim in fetchOne (src/api/multi.js
lines 596-600): when the length after the append exceeds 288, ltrim
keeps exactly the last 288 entries. -/
def trimPositive (l : List SeriesPoint) : List SeriesPoint :=
  if SERIES_POINTS_24H < l.length then l.drop (l.length - SERIES_POINTS_24H) else l

/-- Translation of the rolling-series append of fetchOne
(src/api/multi.js lines 579-606): compute the bucket of now, and when
the stored lastBucket differs (or is unparseable), push the new point,
trim, and advance lastBucket to the current bucket. -/
def fetchOneSeriesStep (s : SeriesState) (now : Int) (price : ℚ) (fr : Option ℚ) (oi : ℚ) :
    SeriesState :=
  let bucket := Int.fdiv now BUCKET_MS
  if s.lastBucket = some bucket then s
  else
    { series := trimPositive (s.series ++ [⟨bucket, now, price, fr, oi⟩])
      lastBucket := some bucket }

/-- Observable side effects of one fetchOne call: outbound market-source
requests and key-value writes. -/
inductive Eff where
  | marketFetch (instId : String)
  | kvWrite (key : String)
deriving DecidableEq

/-- Splits a character list at commas, the model of the JS split on a
comma used by both handlers. -/
def splitCommaAux : List Char → List Char → List (List Char)
  | [], acc => [acc.reverse]
  | c :: rest, acc =>
    if c = ',' then acc.reverse :: splitCommaAux rest []
    else splitCommaAux rest (c :: acc)

/-- Model of String.prototype.trim on the character list. -/
def trimChars (cs : List Char) : List Char :=
  ((cs.dropWhile Char.isWhitespace).reverse.dropWhile Char.isWhitespace).reverse

/-- Translation of the symbol parsing of the multi handler
(src/api/multi.js lines 669-672): split on commas, trim, uppercase and
drop empty entries (filter Boolean). -/
def parseSymbols (raw : String) : List String :=
  ((splitCommaAux raw.data []).map
    (fun cs => String.mk ((trimChars cs).map Char.toUpper))).filter
    (fun s => decide (s ≠ ""))

/-- Response of the multi handler restricted to what the guard claims
concern: HTTP status, ok flag, per-symbol results and the side effects
performed. -/
structure HandlerOut (α : Type) where
  status : Nat
  ok : Bool
  results : List α
  effects : List Eff
deriving DecidableEq

/-- Translation of the control flow of the multi handler
(src/api/multi.js lines 663-698) around its per-symbol work: the raw
symbols string falls back from the query to DEFAULT_SYMBOLS to the
literal default, is parsed, and an empty or oversized list returns 400
before any fetch or write; otherwise every symbol is processed by
fetchOne, abstracted here as a function returning a result and its
effect trace. -/
def multiHandler {α : Type} (fetchOne : String → α × List Eff)
    (querySymbols envDefault : Option String) : HandlerOut α :=
  let symbolsRaw := jsStringOr (optStr querySymbols)
    (jsStringOr (optStr envDefault) "ETHUSDT,LDOUSDT")
  let symbols := parseSymbols symbolsRaw
  if symbols.length = 0 then ⟨400, false, [], []⟩
  else if 50 < symbols.length then ⟨400, false, [], []⟩
  else
    let rs := symbols.map fetchOne
    ⟨200, true, rs.map Prod.fst, (rs.map Prod.snd).flatten⟩

end Multi

namespace Ingest

/-- Snapshot blob written by processOne (src/api/snapshot.js lines
460-466), field for field in source order. -/
structure Snapshot where
  price : ℚ
  funding_rate : Option ℚ
  open_interest_contracts : ℚ
  ts : Int
deriving DecidableEq

/-- Value stored under a snapshot key: either a JSON blob that parses
back to a snapshot, or malformed content on which safeJsonParse returns
null. -/
inductive SnapVal where
  | json (s : Snapshot)
  | malformed
deriving DecidableEq

/-- Model of safeJsonParse applied to a read snapshot key: absent keys
and malformed blobs both yield null. -/
def snapParse : Option SnapVal → Option Snapshot
  | some (SnapVal.json s) => some s
  | some SnapVal.malformed => none
  | none => none

/-- Snapshot store: the snap5m keys of the key-value store. -/
def SnapStore : Type := String → Option SnapVal

/-- Bucket width in milliseconds (src/api/snapshot.js). -/
def BUCKET_MS : Int := 300000

/-- Key of the snapshot cell for an instrument and bucket
(src/api/snapshot.js line 451). -/
def snapKey (instId : String) (bucket : Int) : String :=
  "snap5m:" ++ instId ++ ":" ++ toString bucket

/-- One successful market-source observation fed into processOne. -/
structure SnapObs where
  price : ℚ
  funding_rate : Option ℚ
  open_interest_contracts : ℚ
deriving DecidableEq

/-- Translation of the snapshot-store effect of processOne
(src/api/snapshot.js lines 448-469): read the cell of the current
bucket, and only when it parses to nothing, write the fresh observation
there.  A cell that already holds a snapshot is left untouched. -/
def processOneSnapWrite (st : SnapStore) (instId : String) (now : Int) (okx : SnapObs) :
    SnapStore :=
  match snapParse (st (snapKey instId (Int.fdiv now BUCKET_MS))) with
  | some _ => st
  | none => fun k =>
      if k = snapKey instId (Int.fdiv now BUCKET_MS) then
        some (SnapVal.json ⟨okx.price, okx.funding_rate, okx.open_interest_contracts, now⟩)
      else st k

end Ingest

namespace Alert

/-- Alert-state portion of the key-value store, as strings. -/
def KV : Type := String → Option String

/-- Pointwise update of the store, the model of one redis set. -/
def kvSet (kv : KV) (k v : String) : KV := fun q => if q = k then some v else kv q

/-- Key builder of CFG.keys.lastState (src/unnamed/part_003 line 1349);
a falsy mode falls back to the literal unknown as in the source. -/
def lastStateKey (mode instId : String) : String :=
  "alert:lastState:" ++ jsStringOr mode "unknown" ++ ":" ++ instId

/-- Key builder of CFG.keys.last15mState (src/unnamed/part_003 line
1350), the legacy mirror used by non-scalp modes. -/
def lastState15mKey (instId : String) : String :=
  "alert:lastState15m:" ++ instId

/-- Key builder of CFG.keys.lastSentAt (src/unnamed/part_003 line 1351);
it is built from the instrument id alone, with no mode component, so the
cooldown state is shared across modes. -/
def lastSentAtKey (instId : String) : String :=
  "alert:lastSentAt:" ++ instId

/-- Translation of writeLastState (src/unnamed/part_003 lines
1459-1466): a dry run writes nothing; an empty or unknown current state
writes nothing; otherwise the per-mode key is set and, for non-scalp
modes, the legacy 15m mirror is set as well. -/
def writeLastState (kv : KV) (mode instId curState : String) (dry : Bool) : KV :=
  if dry then kv
  else if curState = "" ∨ curState = "unknown" then kv
  else
    let kv1 := kvSet kv (lastStateKey mode instId) curState
    if mode ≠ "scalp" then kvSet kv1 (lastState15mKey instId) curState else kv1

/-- Detection thresholds of CFG (src/unnamed/part_003 lines 1253-1256). -/
structure DetectCfg where
  momentumAbs5mPricePct : ℚ
  shockOi15mPct : ℚ
  shockAbs15mPricePct : ℚ
deriving DecidableEq

/-- Default detection thresholds (src/unnamed/part_003 lines 1254-1256):
0.10 percent momentum, 0.50 percent OI shock, 0.20 percent price
shock. -/
def defaultDetectCfg : DetectCfg :=
  { momentumAbs5mPricePct := mkRat 1 10
    shockOi15mPct := mkRat 1 2
    shockAbs15mPricePct := mkRat 1 5 }

/-- One timeframe record of an item returned by the derivation engine,
as the evaluator reads it: every field may be absent in the JSON. -/
structure EvalDelta where
  price_change_pct : Option ℚ := none
  oi_change_pct : Option ℚ := none
  state : Option String := none
  lean : Option String := none
deriving DecidableEq

/-- One per-symbol item of the multi response, restricted to the fields
the detection gate and the entry gates read. -/
structure EvalItem where
  price : Option ℚ := none
  d5 : Option EvalDelta := none
  d15 : Option EvalDelta := none
  d1h : Option EvalDelta := none
  d4h : Option EvalDelta := none
deriving DecidableEq

/-- Model of String(stateTf?.state or unknown): a missing record, a
missing field or an empty string all read as unknown. -/
def curStateOf (stateTf : Option EvalDelta) : String :=
  match stateTf with
  | some d =>
    match d.state with
    | some st => if st = "" then "unknown" else st
    | none => "unknown"
  | none => "unknown"

/-- Model of the abs helper combined with the JS nullish fallback to
zero, as in abs(x) or-else 0 (src/unnamed/part_003 line 1389 and its
uses). -/
def absOrZero (x : Option ℚ) : ℚ :=
  match x with
  | some v => |v|
  | none => 0

/-- Model of (x or-else negative infinity) greater-or-equal c: a null
value never reaches a finite threshold. -/
def geOrNegInf (x : Option ℚ) (c : ℚ) : Bool :=
  match x with
  | some v => decide (c ≤ v)
  | none => false

/-- Price-change field of an optional delta record. -/
def deltaPricePct (d : Option EvalDelta) : Option ℚ := d.bind (fun dd => dd.price_change_pct)

/-- Open-interest-change field of an optional delta record. -/
def deltaOiPct (d : Option EvalDelta) : Option ℚ := d.bind (fun dd => dd.oi_change_pct)

/-- Translation of evaluateCriteria (src/unnamed/part_003 lines
1701-1729): the detection timeframe is 5m for scalp and 15m otherwise;
setup_flip fires on a stored state differing from the current one,
momentum_confirm on the absolute 5m price change reaching the momentum
threshold, positioning_shock on either timeframe reaching the OI
threshold or the absolute price-change threshold. -/
def evaluateCriteria (cfg : DetectCfg) (item : EvalItem) (lastState : Option String)
    (mode : String) : List String × String :=
  let m := jsToLower (jsStringOr mode "scalp")
  let d5 := item.d5
  let d15 := item.d15
  let stateTf := if m = "scalp" then d5 else d15
  let curState := curStateOf stateTf
  let t1 :=
    match lastState with
    | some ls => if ls ≠ "" ∧ curState ≠ ls then ["setup_flip"] else []
    | none => []
  let t2 :=
    if cfg.momentumAbs5mPricePct ≤ absOrZero (deltaPricePct d5) then ["momentum_confirm"]
    else []
  let shock5 := geOrNegInf (deltaOiPct d5) cfg.shockOi15mPct
    || decide (cfg.shockAbs15mPricePct ≤ absOrZero (deltaPricePct d5))
  let shock15 := geOrNegInf (deltaOiPct d15) cfg.shockOi15mPct
    || decide (cfg.shockAbs15mPricePct ≤ absOrZero (deltaPricePct d15))
  let t3 := if shock5 || shock15 then ["positioning_shock"] else []
  (t1 ++ t2 ++ t3, curState)

/-- Spec-side shock condition for one timeframe, written from the claim:
the OI change reaches SHOCK_OI_MIN, or the absolute price change reaches
SHOCK_PRICE_MIN, the relation being OR. -/
def shockSpec (cfg : DetectCfg) (d : Option EvalDelta) : Prop :=
  (∃ v, deltaOiPct d = some v ∧ cfg.shockOi15mPct ≤ v)
    ∨ (∃ v, deltaPricePct d = some v ∧ cfg.shockAbs15mPricePct ≤ |v|)

/-- Model of the handler reading a stored last state (src/unnamed/
part_003 lines 2060-2061): a missing key or an empty string read as no
stored state. -/
def readLastState (kv : KV) (mode instId : String) : Option String :=
  match kv (lastStateKey mode instId) with
  | some s => if s = "" then none else some s
  | none => none

/-- Output of one mode iteration of the handler loop up to the
no-triggers gate. -/
structure ModeStepOut where
  kv : KV
  proceeds : Bool
  curState : String
  triggers : List String

/-- Translation of the top of the per-mode loop body of the handler
(src/unnamed/part_003 lines 2059-2071): read the stored last state, run
the detection gate, immediately seed the last state, and proceed past
the no-triggers check only when forced or when some trigger fired. -/
def modeStep (cfg : DetectCfg) (kv : KV) (mode instId : String) (item : EvalItem)
    (force dry : Bool) : ModeStepOut :=
  let lastState := readLastState kv mode instId
  let r := evaluateCriteria cfg item lastState mode
  let kv2 := writeLastState kv mode instId r.2 dry
  { kv := kv2
    proceeds := force || !r.1.isEmpty
    curState := r.2
    triggers := r.1 }

/-- Structural-levels record for one window, as computeLevelsFromSeries
produces it (src/unnamed/part_003 lines 1468-1502). -/
structure LevelsRec where
  warmup : Bool
  hi : Option ℚ := none
  lo : Option ℚ := none
  mid : Option ℚ := none
deriving DecidableEq

/-- Result record of edgeRecoCheck. -/
structure B1Result where
  strong : Bool
  reason : String
  edge : Option ℚ := none
  hi : Option ℚ := none
  lo : Option ℚ := none
deriving DecidableEq

/-- Translation of edgeRecoCheck (src/unnamed/part_003 lines 1528-1551):
warmup and missing fields deny, a non-positive range denies, then the
long side accepts prices up to lo plus the edge and the short side
accepts prices from hi minus the edge. -/
def edgeRecoCheck (bias : String) (levels1h : Option LevelsRec) (price : Option ℚ)
    (edgePct : ℚ) : B1Result :=
  match levels1h with
  | none => { strong := false, reason := "1h_warmup" }
  | some l1h =>
    if l1h.warmup then { strong := false, reason := "1h_warmup" }
    else
      match l1h.hi, l1h.lo, price with
      | some hi, some lo, some p =>
        let range := hi - lo
        if ¬ 0 < range then { strong := false, reason := "bad_range" }
        else
          let edge := edgePct * range
          if bias = "long" then
            let ok := decide (p ≤ lo + edge)
            { strong := ok
              reason := if ok then "long_near_low" else "long_not_near_low"
              edge := some edge, hi := some hi, lo := some lo }
          else if bias = "short" then
            let ok := decide (hi - edge ≤ p)
            { strong := ok
              reason := if ok then "short_near_high" else "short_not_near_high"
              edge := some edge, hi := some hi, lo := some lo }
          else { strong := false, reason := "neutral_bias" }
      | _, _, _ => { strong := false, reason := "missing_levels" }

/-- Cooldown configuration: CFG.cooldownMinutes times 60000 ms
(src/unnamed/part_003 lines 1244 and 2021). -/
structure CooldownCfg where
  cooldownMs : ℚ
deriving DecidableEq

/-- Per-instrument projection of one evaluator invocation: the wall
clock of the run, the force and dry flags, whether the whole gating
pipeline produced a winner for this instrument, and whether the
notifier call succeeded. -/
structure EvalInvocation where
  now : ℚ
  force : Bool
  dry : Bool
  pipelineWins : Bool
  sendOk : Bool
deriving DecidableEq

/-- Translation of the cooldown gate condition (src/unnamed/part_003
line 2044): a non-forced run is blocked when a finite stored lastSentAt
is closer to now than the cooldown window. -/
def cooldownBlocks (cfg : CooldownCfg) (lastSent : Option ℚ) (inv : EvalInvocation) : Bool :=
  !inv.force &&
    (match lastSent with
     | some t => decide (inv.now - t < cfg.cooldownMs)
     | none => false)

/-- Condition under which the invocation writes lastSentAt
(src/unnamed/part_003 lines 2178-2180): the cooldown gate passed, the
pipeline produced a winner, and the run is not dry. -/
def writesLastSent (cfg : CooldownCfg) (lastSent : Option ℚ) (inv : EvalInvocation) : Bool :=
  !cooldownBlocks cfg lastSent inv && inv.pipelineWins && !inv.dry

/-- Condition under which the invocation emits a notification for the
instrument (src/unnamed/part_003 lines 2303-2324): the write condition
together with a successful notifier call. -/
def notifies (cfg : CooldownCfg) (lastSent : Option ℚ) (inv : EvalInvocation) : Bool :=
  writesLastSent cfg lastSent inv && inv.sendOk

/-- Effect of one invocation on the stored lastSentAt: set to now
exactly when the write condition holds. -/
def stepLastSent (cfg : CooldownCfg) (lastSent : Option ℚ) (inv : EvalInvocation) : Option ℚ :=
  if writesLastSent cfg lastSent inv then some inv.now else lastSent

/-- Stored lastSentAt after a sequence of invocations. -/
def runLastSent (cfg : CooldownCfg) : Option ℚ → List EvalInvocation → Option ℚ
  | lastSent, [] => lastSent
  | lastSent, inv :: rest => runLastSent cfg (stepLastSent cfg lastSent inv) rest

/-- Evaluator key-value state together with the history of notifier
calls. -/
structure EffState where
  kv : KV
  notifierCalls : List String

/-- The four key-value write sites and the one notifier call site of the
evaluator handler (src/unnamed/part_003 lines 1419-1425, 1459-1466,
2178-2180 and 2303-2324).  Every redis set or expire and every
sendTelegram call of the handler, on every exit path including the
catch block, goes through one of these. -/
inductive WriteSite where
  | heartbeat (payload : String)
  | lastStateW (mode instId curState : String)
  | lastSentAtW (instId nowStr : String)
  | telegram (text : String)

/-- Effect of one write site on the evaluator state, with the dry guard
each site carries in the source: writeHeartbeat and writeLastState
return early on dry, and the lastSentAt write and the sendTelegram call
are wrapped in if-not-dry blocks by the handler. -/
def execSite (hbKey : String) (dry : Bool) (s : EffState) : WriteSite → EffState
  | WriteSite.heartbeat payload =>
    if dry then s else { s with kv := kvSet s.kv hbKey payload }
  | WriteSite.lastStateW mode instId curState =>
    { s with kv := writeLastState s.kv mode instId curState dry }
  | WriteSite.lastSentAtW instId nowStr =>
    if dry then s else { s with kv := kvSet s.kv (lastSentAtKey instId) nowStr }
  | WriteSite.telegram text =>
    if dry then s else { s with notifierCalls := s.notifierCalls ++ [text] }

/-- The four classified market states, the only values the evaluator is
allowed to persist as last states. -/
def fourStates : List String :=
  ["longs opening", "shorts opening", "shorts closing", "longs closing"]

/-- Invariant on the alert state: every stored per-mode last state and
every stored legacy 15m mirror is one of the four classified states. -/
def lastStateInv (kv : KV) : Prop :=
  (∀ mode instId v, kv (lastStateKey mode instId) = some v → v ∈ fourStates) ∧
  (∀ instId v, kv (lastState15mKey instId) = some v → v ∈ fourStates)

/-- Hypothesis that every state string carried by an item was produced
by the derivation engine classifier: it is unknown or one of the four
classified states. -/
def deltaStateClassified (d : Option EvalDelta) : Prop :=
  ∀ dd st, d = some dd → dd.state = some st → st = "unknown" ∨ st ∈ fourStates

/-- Concrete empty store used by the witnesses. -/
def kvEmpty : KV := fun _ => none

/-- Concrete item whose deltas are entirely absent, as the evaluator
sees for an instrument with no derivable data; its detection state is
unknown. -/
def itemUnknown : EvalItem := {}

/-- Concrete item with a 0.12 percent 5m price move, used to exercise
the momentum trigger. -/
def itemMomentum : EvalItem :=
  { d5 := some { price_change_pct := some (mkRat 12 100), oi_change_pct := some 0,
                 state := some "longs opening", lean := some "long" } }

end Alert

end Gateway

namespace Gateway.Multi

/-- C5: the classification function maps its inputs exactly per the
table of section 3.3 of the specification: positive price change and
positive OI change give longs opening with lean long; negative price
with positive OI gives shorts opening with lean short; positive price
with non-positive OI gives shorts closing with lean long; negative
price with non-positive OI gives longs closing with lean short; a null
input on either side gives the state unknown with lean neutral. -/
theorem classifyState_table (p oi : ℚ) (fr x : Option ℚ) :
    (0 < p → 0 < oi → classifyState (some p) (some oi) = "longs opening"
      ∧ (addLeanAndWhy "longs opening" fr).lean = "long") ∧
    (p < 0 → 0 < oi → classifyState (some p) (some oi) = "shorts opening"
      ∧ (addLeanAndWhy "shorts opening" fr).lean = "short") ∧
    (0 < p → oi ≤ 0 → classifyState (some p) (some oi) = "shorts closing"
      ∧ (addLeanAndWhy "shorts closing" fr).lean = "long") ∧
    (p < 0 → oi ≤ 0 → classifyState (some p) (some oi) = "longs closing"
      ∧ (addLeanAndWhy "longs closing" fr).lean = "short") ∧
    (classifyState none x = "unknown" ∧ classifyState x none = "unknown"
      ∧ (addLeanAndWhy "unknown" fr).lean = "neutral") := by
  refine ⟨?_, ?_, ?_, ?_, ?_, ?_, ?_⟩
  · intro hp hoi
    exact ⟨by simp [classifyState, decide_eq_true hp, decide_eq_true hoi], rfl⟩
  · intro hp hoi
    exact ⟨by simp [classifyState, decide_eq_false (not_lt.mpr hp.le), decide_eq_true hoi], rfl⟩
  · intro hp hoi
    exact ⟨by simp [classifyState, decide_eq_true hp, decide_eq_false (not_lt.mpr hoi)], rfl⟩
  · intro hp hoi
    exact ⟨by simp [classifyState, decide_eq_false (not_lt.mpr hp.le),
      decide_eq_false (not_lt.mpr hoi)], rfl⟩
  · rfl
  · cases x <;> rfl
  · rcases fr with _ | v
    · rfl
    · by_cases h1 : 0 < v
      · simp [addLeanAndWhy, h1]
      · by_cases h2 : v < 0
        · simp [addLeanAndWhy, h1, h2]
        · simp [addLeanAndWhy, h1, h2]

/-- Concrete instance of the classification table at price change 1 and
OI change 2. -/
theorem classifyState_table_witness :
    (0:ℚ) < 1 ∧ (0:ℚ) < 2 ∧ classifyState (some (1:ℚ)) (some (2:ℚ)) = "longs opening"
      ∧ (addLeanAndWhy "longs opening" (some (1/1000 : ℚ))).lean = "long" := by
  have h := (classifyState_table 1 2 (some (1/1000 : ℚ)) none).1 (by norm_num) (by norm_num)
  exact ⟨by norm_num, by norm_num, h.1, h.2⟩

/-- Length of the trimmed series. -/
theorem trimPositive_length (l : List SeriesPoint) :
    (trimPositive l).length = min l.length SERIES_POINTS_24H := by
  unfold trimPositive
  split_ifs with h
  · simp only [List.length_drop]
    omega
  · omega

/-- The trimmed series is a suffix of the untrimmed one: points are
evicted from the front, oldest first. -/
theorem trimPositive_suffix (l : List SeriesPoint) : trimPositive l <:+ l := by
  unfold trimPositive
  split_ifs with h
  · exact List.drop_suffix _ _
  · exact List.suffix_refl l

/-- C7: running the derivation-engine series append twice within the
same 5-minute bucket appends exactly one point in total and advances
lastBucket exactly once: the second run sees lastBucket equal to the
current bucket and changes nothing, a first run on a different stored
bucket appends exactly the one new point, and every append is followed
by the positive-index trim keeping at most 288 points with the oldest
evicted first. -/
theorem series_append_once_per_bucket (s : SeriesState) (now1 now2 : Int) (p1 p2 : ℚ)
    (f1 f2 : Option ℚ) (oi1 oi2 : ℚ)
    (hb : Int.fdiv now1 BUCKET_MS = Int.fdiv now2 BUCKET_MS) :
    fetchOneSeriesStep (fetchOneSeriesStep s now1 p1 f1 oi1) now2 p2 f2 oi2
      = fetchOneSeriesStep s now1 p1 f1 oi1 ∧
    (fetchOneSeriesStep s now1 p1 f1 oi1).lastBucket = some (Int.fdiv now1 BUCKET_MS) ∧
    (s.lastBucket ≠ some (Int.fdiv now1 BUCKET_MS) →
      (fetchOneSeriesStep s now1 p1 f1 oi1).series
        = trimPositive (s.series ++ [⟨Int.fdiv now1 BUCKET_MS, now1, p1, f1, oi1⟩]) ∧
      (fetchOneSeriesStep s now1 p1 f1 oi1).series.length
        = min (s.series.length + 1) SERIES_POINTS_24H) ∧
    (∀ l : List SeriesPoint,
      (trimPositive l).length ≤ SERIES_POINTS_24H ∧ trimPositive l <:+ l) := by
  by_cases hlb : s.lastBucket = some (Int.fdiv now1 BUCKET_MS)
  · have h1 : fetchOneSeriesStep s now1 p1 f1 oi1 = s := by
      unfold fetchOneSeriesStep
      rw [if_pos hlb]
    refine ⟨?_, ?_, ?_, ?_⟩
    · rw [h1]
      unfold fetchOneSeriesStep
      rw [if_pos (hb ▸ hlb)]
    · rw [h1]
      exact hlb
    · intro hcontra
      exact absurd hlb hcontra
    · intro l
      refine ⟨?_, trimPositive_suffix l⟩
      rw [trimPositive_length]
      omega
  · have h1 : fetchOneSeriesStep s now1 p1 f1 oi1
        = { series := trimPositive (s.series ++ [⟨Int.fdiv now1 BUCKET_MS, now1, p1, f1, oi1⟩])
            lastBucket := some (Int.fdiv now1 BUCKET_MS) } := by
      unfold fetchOneSeriesStep
      rw [if_neg hlb]
    refine ⟨?_, ?_, ?_, ?_⟩
    · rw [h1]
      unfold fetchOneSeriesStep
      rw [if_pos (by rw [← hb])]
    · rw [h1]
    · intro _
      refine ⟨by rw [h1], ?_⟩
      rw [h1]
      simp only [trimPositive_length, List.length_append, List.length_singleton]
    · intro l
      refine ⟨?_, trimPositive_suffix l⟩
      rw [trimPositive_length]
      omega

/-- Concrete instance of the series idempotence starting from the empty
series: the second call at a time in the same bucket is a no-op. -/
theorem series_append_once_per_bucket_witness :
    Int.fdiv 0 BUCKET_MS = Int.fdiv 299999 BUCKET_MS ∧
    fetchOneSeriesStep (fetchOneSeriesStep ⟨[], none⟩ 0 1 none 5) 299999 2 none 6
      = fetchOneSeriesStep ⟨[], none⟩ 0 1 none 5 :=
  ⟨by decide, (series_append_once_per_bucket ⟨[], none⟩ 0 299999 1 2 none none 5 6 (by decide)).1⟩

/-- C10: a request to the derivation-engine endpoint whose parsed symbol
list is empty, or holds more than 50 symbols, returns status 400 with no
market-source fetch and no key-value write; a request within the limit
returns exactly one result per listed symbol, in order. -/
theorem multi_symbols_guard {α : Type} (fetchOne : String → α × List Eff)
    (querySymbols envDefault : Option String) :
    (parseSymbols (jsStringOr (optStr querySymbols)
        (jsStringOr (optStr envDefault) "ETHUSDT,LDOUSDT")) = [] →
      multiHandler fetchOne querySymbols envDefault = ⟨400, false, [], []⟩) ∧
    (50 < (parseSymbols (jsStringOr (optStr querySymbols)
        (jsStringOr (optStr envDefault) "ETHUSDT,LDOUSDT"))).length →
      multiHandler fetchOne querySymbols envDefault = ⟨400, false, [], []⟩) ∧
    ((parseSymbols (jsStringOr (optStr querySymbols)
        (jsStringOr (optStr envDefault) "ETHUSDT,LDOUSDT"))) ≠ [] →
      (parseSymbols (jsStringOr (optStr querySymbols)
        (jsStringOr (optStr envDefault) "ETHUSDT,LDOUSDT"))).length ≤ 50 →
      multiHandler fetchOne querySymbols envDefault
        = ⟨200, true,
            (parseSymbols (jsStringOr (optStr querySymbols)
              (jsStringOr (optStr envDefault) "ETHUSDT,LDOUSDT"))).map
              (fun sym => (fetchOne sym).1),
            ((parseSymbols (jsStringOr (optStr querySymbols)
              (jsStringOr (optStr envDefault) "ETHUSDT,LDOUSDT"))).map
              (fun sym => (fetchOne sym).2)).flatten⟩) := by
  refine ⟨?_, ?_, ?_⟩
  · intro h
    simp only [multiHandler, h]
    rfl
  · intro h
    simp only [multiHandler]
    split_ifs <;> rfl
  · intro hne hle
    simp only [multiHandler]
    split_ifs with h1 h2
    · exact absurd (List.length_eq_zero.mp h1) hne
    · omega
    · simp only [List.map_map]
      rfl

/-- Concrete instance of the guard: a query of a single blank parses to
the empty symbol list and yields the 400 response with no effects. -/
theorem multi_symbols_guard_witness :
    parseSymbols (jsStringOr (optStr (some " "))
        (jsStringOr (optStr none) "ETHUSDT,LDOUSDT")) = [] ∧
    multiHandler (fun _ => ((0 : Nat), ([] : List Eff))) (some " ") none
      = ⟨400, false, [], []⟩ := by
  have h : parseSymbols (jsStringOr (optStr (some " "))
      (jsStringOr (optStr none) "ETHUSDT,LDOUSDT")) = [] := by decide
  exact ⟨h, (multi_symbols_guard (fun _ => ((0 : Nat), ([] : List Eff))) (some " ") none).1 h⟩

end Gateway.Multi

namespace Gateway.Ingest

/-- C6: the ingestor snapshot write is idempotent within a bucket: a
second processOne call in the same bucket leaves the store exactly as
the first call left it, and when the cell was empty the first call
stores the first successful observation there. -/
theorem snapshot_write_idempotent (st : SnapStore) (instId : String) (now1 now2 : Int)
    (o1 o2 : SnapObs) (hb : Int.fdiv now1 BUCKET_MS = Int.fdiv now2 BUCKET_MS) :
    processOneSnapWrite (processOneSnapWrite st instId now1 o1) instId now2 o2
      = processOneSnapWrite st instId now1 o1 ∧
    (st (snapKey instId (Int.fdiv now1 BUCKET_MS)) = none →
      processOneSnapWrite st instId now1 o1 (snapKey instId (Int.fdiv now1 BUCKET_MS))
        = some (SnapVal.json ⟨o1.price, o1.funding_rate, o1.open_interest_contracts, now1⟩)) := by
  have step : ∀ (st' : SnapStore) (now' : Int) (o : SnapObs),
      Int.fdiv now' BUCKET_MS = Int.fdiv now1 BUCKET_MS →
      processOneSnapWrite st' instId now' o =
        (match snapParse (st' (snapKey instId (Int.fdiv now1 BUCKET_MS))) with
         | some _ => st'
         | none => fun k =>
             if k = snapKey instId (Int.fdiv now1 BUCKET_MS) then
               some (SnapVal.json ⟨o.price, o.funding_rate, o.open_interest_contracts, now'⟩)
             else st' k) := by
    intro st' now' o h
    unfold processOneSnapWrite
    rw [h]
  constructor
  · cases hsk : snapParse (st (snapKey instId (Int.fdiv now1 BUCKET_MS))) with
    | some s =>
      have h1 : processOneSnapWrite st instId now1 o1 = st := by
        rw [step st now1 o1 rfl, hsk]
      rw [h1, step st now2 o2 hb.symm, hsk]
    | none =>
      have h1 : processOneSnapWrite st instId now1 o1 = fun k =>
          if k = snapKey instId (Int.fdiv now1 BUCKET_MS) then
            some (SnapVal.json ⟨o1.price, o1.funding_rate, o1.open_interest_contracts, now1⟩)
          else st k := by
        rw [step st now1 o1 rfl, hsk]
      have h2 : snapParse ((fun k =>
          if k = snapKey instId (Int.fdiv now1 BUCKET_MS) then
            some (SnapVal.json ⟨o1.price, o1.funding_rate, o1.open_interest_contracts, now1⟩)
          else st k) (snapKey instId (Int.fdiv now1 BUCKET_MS)))
          = some ⟨o1.price, o1.funding_rate, o1.open_interest_contracts, now1⟩ := by
        simp [snapParse]
      rw [h1, step _ now2 o2 hb.symm, h2]
  · intro h
    rw [step st now1 o1 rfl, h]
    simp [snapParse]

/-- Concrete instance of the snapshot idempotence on the empty store:
the value written by the first call survives a second call later in the
same bucket. -/
theorem snapshot_write_idempotent_witness :
    Int.fdiv 10 BUCKET_MS = Int.fdiv 299999 BUCKET_MS ∧
    processOneSnapWrite
        (processOneSnapWrite (fun _ => none) "ETH-USDT-SWAP" 10 ⟨100, none, 7⟩)
        "ETH-USDT-SWAP" 299999 ⟨200, none, 9⟩
      = processOneSnapWrite (fun _ => none) "ETH-USDT-SWAP" 10 ⟨100, none, 7⟩ :=
  ⟨by decide,
    (snapshot_write_idempotent (fun _ => none) "ETH-USDT-SWAP" 10 299999
      ⟨100, none, 7⟩ ⟨200, none, 9⟩ (by decide)).1⟩

end Gateway.Ingest

namespace Gateway.Alert

/-- Every single write site of the evaluator is a no-op in dry mode. -/
theorem execSite_dry (hbKey : String) (s : EffState) (w : WriteSite) :
    execSite hbKey true s w = s := by
  cases w <;> rfl

/-- C2: a dry evaluator invocation changes nothing: whatever sequence of
write-site calls an execution path of the handler performs, including
the heartbeat write of the catch block, the alert keys of the store and
the notifier-call history are exactly as before.  The WriteSite type
enumerates every redis write and every notifier call of the handler, so
this covers every exit path. -/
theorem dry_run_no_effects (hbKey : String) (s : EffState) (ws : List WriteSite) :
    ws.foldl (execSite hbKey true) s = s := by
  induction ws generalizing s with
  | nil => rfl
  | cons w rest ih =>
    rw [List.foldl_cons, execSite_dry]
    exact ih s

/-- C8: the B1 edge-band check is symmetric: with a valid 1h range the
long check accepts the price at lo, the short check accepts the price at
hi, and when hi equals lo plus the edge both checks accept every price
of the range. -/
theorem edge_band_symmetric (hi lo : ℚ) (mid : Option ℚ) (edgePct : ℚ)
    (hrange : lo < hi) (hedge : 0 ≤ edgePct) :
    (edgeRecoCheck "long" (some ⟨false, some hi, some lo, mid⟩) (some lo) edgePct).strong
        = true ∧
    (edgeRecoCheck "short" (some ⟨false, some hi, some lo, mid⟩) (some hi) edgePct).strong
        = true ∧
    (hi = lo + edgePct * (hi - lo) →
      ∀ p : ℚ, lo ≤ p → p ≤ hi →
        (edgeRecoCheck "long" (some ⟨false, some hi, some lo, mid⟩) (some p) edgePct).strong
            = true ∧
        (edgeRecoCheck "short" (some ⟨false, some hi, some lo, mid⟩) (some p) edgePct).strong
            = true) := by
  have hr : (0:ℚ) < hi - lo := sub_pos.mpr hrange
  have he : 0 ≤ edgePct * (hi - lo) := mul_nonneg hedge hr.le
  refine ⟨?_, ?_, ?_⟩
  · simp [edgeRecoCheck, hr]
    linarith
  · simp [edgeRecoCheck, hr]
    linarith
  · intro heq p hlo hhi
    constructor
    · simp [edgeRecoCheck, hr]
      linarith [heq]
    · simp [edgeRecoCheck, hr]
      linarith [heq]

/-- Concrete instance of the edge-band symmetry at the range 1940 to
2000 with the default edge fraction 0.15. -/
theorem edge_band_symmetric_witness :
    (1940:ℚ) < 2000 ∧ (0:ℚ) ≤ 15/100 ∧
    (edgeRecoCheck "long" (some ⟨false, some 2000, some 1940, none⟩) (some 1940)
        (15/100)).strong = true ∧
    (edgeRecoCheck "short" (some ⟨false, some 2000, some 1940, none⟩) (some 2000)
        (15/100)).strong = true := by
  have h := edge_band_symmetric 2000 1940 none (15/100) (by norm_num) (by norm_num)
  exact ⟨by norm_num, by norm_num, h.1, h.2.1⟩

end Gateway.Alert

namespace Gateway.Alert

/-- The classifier only ever produces unknown or one of the four
classified states. -/
theorem classifyState_range (p oi : Option ℚ) :
    Multi.classifyState p oi = "unknown" ∨ Multi.classifyState p oi ∈ fourStates := by
  rcases p with _ | a
  · exact Or.inl rfl
  rcases oi with _ | b
  · exact Or.inl rfl
  by_cases hp : 0 < a
  · by_cases hb : 0 < b
    · exact Or.inr (by simp [Multi.classifyState, decide_eq_true hp, decide_eq_true hb,
        fourStates])
    · exact Or.inr (by simp [Multi.classifyState, decide_eq_true hp, decide_eq_false hb,
        fourStates])
  · by_cases hb : 0 < b
    · exact Or.inr (by simp [Multi.classifyState, decide_eq_false hp, decide_eq_true hb,
        fourStates])
    · exact Or.inr (by simp [Multi.classifyState, decide_eq_false hp, decide_eq_false hb,
        fourStates])

/-- The current detection state read from a classifier-produced delta is
unknown or one of the four classified states. -/
theorem curStateOf_classified (d : Option EvalDelta) (h : deltaStateClassified d) :
    curStateOf d = "unknown" ∨ curStateOf d ∈ fourStates := by
  rcases d with _ | dd
  · exact Or.inl rfl
  rcases hst : dd.state with _ | st
  · left
    simp [curStateOf, hst]
  by_cases he : st = ""
  · left
    simp [curStateOf, hst, he]
  · have hmem := h dd st rfl hst
    simp only [curStateOf, hst, if_neg he]
    exact hmem

/-- The current detection state is never the empty string. -/
theorem curStateOf_ne_empty (d : Option EvalDelta) : curStateOf d ≠ "" := by
  rcases d with _ | dd
  · simp [curStateOf]
  rcases hst : dd.state with _ | st
  · simp [curStateOf, hst]
  by_cases he : st = "" <;> simp [curStateOf, hst, he]

/-- Setting any key to one of the four states preserves the last-state
invariant. -/
theorem kvSet_lastStateInv (kv : KV) (k v : String) (hinv : lastStateInv kv)
    (hv : v ∈ fourStates) : lastStateInv (kvSet kv k v) := by
  constructor
  · intro mode instId w hw
    by_cases hk : lastStateKey mode instId = k
    · simp only [kvSet, if_pos hk] at hw
      cases hw
      exact hv
    · simp only [kvSet, if_neg hk] at hw
      exact hinv.1 mode instId w hw
  · intro instId w hw
    by_cases hk : lastState15mKey instId = k
    · simp only [kvSet, if_pos hk] at hw
      cases hw
      exact hv
    · simp only [kvSet, if_neg hk] at hw
      exact hinv.2 instId w hw

/-- C9: every state-seeding operation of the evaluator preserves the
invariant that any value stored under a lastState or lastState15m key is
one of the four classified states: the classifier can only produce those
states or unknown, the detection gate reads the same range, a write of
the unknown state is skipped leaving the store unchanged, and
writeLastState preserves the invariant. -/
theorem lastState_classified_invariant (kv : KV) (mode instId curState : String) (dry : Bool)
    (p oi : Option ℚ) (cfg : DetectCfg) (item : EvalItem) (ls : Option String) (m : String)
    (hinv : lastStateInv kv) (hcur : curState = "unknown" ∨ curState ∈ fourStates) :
    (Multi.classifyState p oi = "unknown" ∨ Multi.classifyState p oi ∈ fourStates) ∧
    (deltaStateClassified item.d5 → deltaStateClassified item.d15 →
      ((evaluateCriteria cfg item ls m).2 = "unknown"
        ∨ (evaluateCriteria cfg item ls m).2 ∈ fourStates)) ∧
    (curState = "unknown" → writeLastState kv mode instId curState dry = kv) ∧
    lastStateInv (writeLastState kv mode instId curState dry) := by
  refine ⟨classifyState_range p oi, ?_, ?_, ?_⟩
  · intro h5 h15
    have e : (evaluateCriteria cfg item ls m).2
        = curStateOf (if jsToLower (jsStringOr m "scalp") = "scalp" then item.d5 else item.d15) :=
      rfl
    rw [e]
    by_cases hm : jsToLower (jsStringOr m "scalp") = "scalp"
    · rw [if_pos hm]
      exact curStateOf_classified _ h5
    · rw [if_neg hm]
      exact curStateOf_classified _ h15
  · intro h
    unfold writeLastState
    split_ifs with h1 h2 h3
    · rfl
    · rfl
    · exact absurd (Or.inr h) h2
    · exact absurd (Or.inr h) h2
  · unfold writeLastState
    split_ifs with h1 h2 h3
    · exact hinv
    · exact hinv
    · have hv : curState ∈ fourStates := by
        rcases hcur with h | h
        · exact absurd (Or.inr h) h2
        · exact h
      exact kvSet_lastStateInv _ _ _ (kvSet_lastStateInv kv _ _ hinv hv) hv
    · have hv : curState ∈ fourStates := by
        rcases hcur with h | h
        · exact absurd (Or.inr h) h2
        · exact h
      exact kvSet_lastStateInv kv _ _ hinv hv

/-- Concrete instance of the invariant preservation: seeding the state
longs opening for swing mode on the empty store keeps the invariant. -/
theorem lastState_classified_invariant_witness :
    lastStateInv (writeLastState kvEmpty "swing" "ETH-USDT-SWAP" "longs opening" false) := by
  have hinv : lastStateInv kvEmpty := by
    constructor
    · intro mode instId v h
      simp [kvEmpty] at h
    · intro instId v h
      simp [kvEmpty] at h
  exact (lastState_classified_invariant kvEmpty "swing" "ETH-USDT-SWAP" "longs opening" false
    none none defaultDetectCfg itemUnknown none "swing" hinv (Or.inr (by decide))).2.2.2

/-- C4 counterexample: an evaluated instrument whose detection-timeframe
state is unknown, with force=0, dry=0 and no triggers, is skipped and
the per-mode last state is NOT seeded: the store still holds nothing
under the key, contradicting the claim that the key is updated with the
current state whenever dry is off. -/
theorem detection_seed_counterexample :
    (modeStep defaultDetectCfg kvEmpty "swing" "ETH-USDT-SWAP" itemUnknown false false).proceeds
        = false ∧
    (modeStep defaultDetectCfg kvEmpty "swing" "ETH-USDT-SWAP" itemUnknown false false).curState
        = "unknown" ∧
    (modeStep defaultDetectCfg kvEmpty "swing" "ETH-USDT-SWAP" itemUnknown false false).kv
        (lastStateKey "swing" "ETH-USDT-SWAP") = none ∧
    ¬ (modeStep defaultDetectCfg kvEmpty "swing" "ETH-USDT-SWAP" itemUnknown false false).kv
        (lastStateKey "swing" "ETH-USDT-SWAP")
      = some (modeStep defaultDetectCfg kvEmpty "swing" "ETH-USDT-SWAP" itemUnknown
          false false).curState := by
  decide

/-- Reading back the keys writeLastState has just written in a non-dry
run with a seedable state. -/
theorem writeLastState_apply (kv : KV) (mode instId curState : String)
    (hne : curState ≠ "") (hnu : curState ≠ "unknown") :
    writeLastState kv mode instId curState false (lastStateKey mode instId) = some curState ∧
    (mode ≠ "scalp" →
      writeLastState kv mode instId curState false (lastState15mKey instId) = some curState) := by
  have hcond : ¬ (curState = "" ∨ curState = "unknown") := by
    rintro (h | h)
    · exact hne h
    · exact hnu h
  have hw : writeLastState kv mode instId curState false
      = (if mode ≠ "scalp" then
          kvSet (kvSet kv (lastStateKey mode instId) curState) (lastState15mKey instId) curState
        else kvSet kv (lastStateKey mode instId) curState) := by
    unfold writeLastState
    rw [if_neg (by simp), if_neg hcond]
  by_cases hmode : mode = "scalp"
  · rw [hw, if_neg (not_not_intro hmode)]
    constructor
    · simp [kvSet]
    · intro h
      exact absurd hmode h
  · rw [hw, if_pos hmode]
    constructor
    · by_cases hk : lastStateKey mode instId = lastState15mKey instId <;> simp [kvSet, hk]
    · intro _
      simp [kvSet]

/-- C4 amended: for every evaluated instrument and mode, when force=0
and no detection trigger fired the mode produces no candidate (so no
notification can arise from it), the seeding write happens right after
the detection gate regardless of the later gates, a dry run leaves the
store untouched, and in a non-dry run the per-mode last state (and, for
non-scalp modes, the legacy 15m mirror) is updated with the current
detection-timeframe state UNLESS that state is unknown, in which case
the write is skipped. -/
theorem detection_seed_amended (cfg : DetectCfg) (kv : KV) (mode instId : String)
    (item : EvalItem) (force dry : Bool) :
    ((modeStep cfg kv mode instId item force dry).proceeds
        = (force || !(modeStep cfg kv mode instId item force dry).triggers.isEmpty)) ∧
    (force = false → (modeStep cfg kv mode instId item force dry).triggers = [] →
      (modeStep cfg kv mode instId item force dry).proceeds = false) ∧
    (dry = true → (modeStep cfg kv mode instId item force dry).kv = kv) ∧
    (dry = false → (modeStep cfg kv mode instId item force dry).curState ≠ "unknown" →
      (modeStep cfg kv mode instId item force dry).kv (lastStateKey mode instId)
          = some (modeStep cfg kv mode instId item force dry).curState ∧
      (mode ≠ "scalp" →
        (modeStep cfg kv mode instId item force dry).kv (lastState15mKey instId)
            = some (modeStep cfg kv mode instId item force dry).curState)) := by
  have hproc : (modeStep cfg kv mode instId item force dry).proceeds
      = (force || !(modeStep cfg kv mode instId item force dry).triggers.isEmpty) := rfl
  have hkv : (modeStep cfg kv mode instId item force dry).kv
      = writeLastState kv mode instId
          (modeStep cfg kv mode instId item force dry).curState dry := rfl
  have hcur : (modeStep cfg kv mode instId item force dry).curState
      = curStateOf (if jsToLower (jsStringOr mode "scalp") = "scalp"
          then item.d5 else item.d15) := rfl
  refine ⟨hproc, ?_, ?_, ?_⟩
  · intro hf ht
    rw [hproc, ht, hf]
    rfl
  · intro hd
    subst hd
    rw [hkv]
    rfl
  · intro hd hnu
    subst hd
    rw [hkv]
    exact writeLastState_apply kv mode instId _ (by rw [hcur]; exact curStateOf_ne_empty _) hnu

/-- Concrete instance of the amended seeding rule: with a classified 5m
state and no stored state, swing mode seeds both the per-mode key and
the 15m mirror. -/
theorem detection_seed_amended_witness :
    (modeStep defaultDetectCfg kvEmpty "swing" "ETH-USDT-SWAP"
        ⟨none, none, some { state := some "longs opening" }, none, none⟩ false false).kv
      (lastStateKey "swing" "ETH-USDT-SWAP") = some "longs opening" := by
  have h := (detection_seed_amended defaultDetectCfg kvEmpty "swing" "ETH-USDT-SWAP"
    ⟨none, none, some { state := some "longs opening" }, none, none⟩ false false).2.2.2
    rfl (by decide)
  exact h.1

end Gateway.Alert

namespace Gateway.Alert

/-- Membership in a conditional singleton list. -/
theorem mem_ite_singleton {c : Prop} [Decidable c] (a b : String) :
    a ∈ (if c then [b] else []) ↔ (c ∧ a = b) := by
  split_ifs with h <;> simp [h]

/-- The nullish-coalescing comparison against negative infinity holds
exactly when the value is present and reaches the threshold. -/
theorem geOrNegInf_iff (x : Option ℚ) (c : ℚ) :
    geOrNegInf x c = true ↔ ∃ v, x = some v ∧ c ≤ v := by
  rcases x with _ | v <;> simp [geOrNegInf]

/-- For a positive threshold, the absolute-value-or-zero comparison
holds exactly when the value is present and its absolute value reaches
the threshold. -/
theorem absOrZero_ge_iff (x : Option ℚ) (c : ℚ) (hc : 0 < c) :
    c ≤ absOrZero x ↔ ∃ v, x = some v ∧ c ≤ |v| := by
  rcases x with _ | v
  · simp only [absOrZero]
    constructor
    · intro h
      exact absurd (lt_of_lt_of_le hc h) (lt_irrefl 0)
    · rintro ⟨v, hv, _⟩
      cases hv
  · simp [absOrZero]

/-- The second component of evaluateCriteria is the state of the
detection timeframe of the mode. -/
theorem evaluateCriteria_snd (cfg : DetectCfg) (item : EvalItem) (ls : Option String)
    (mode : String) :
    (evaluateCriteria cfg item ls mode).2
      = curStateOf (if jsToLower (jsStringOr mode "scalp") = "scalp"
          then item.d5 else item.d15) := rfl

/-- Exact description of membership in the trigger list produced by
evaluateCriteria. -/
theorem evaluateCriteria_mem (cfg : DetectCfg) (item : EvalItem) (ls : Option String)
    (mode : String) (a : String) :
    a ∈ (evaluateCriteria cfg item ls mode).1 ↔
      (((∃ s, ls = some s ∧ s ≠ "" ∧ (evaluateCriteria cfg item ls mode).2 ≠ s)
          ∧ a = "setup_flip")
       ∨ ((cfg.momentumAbs5mPricePct ≤ absOrZero (deltaPricePct item.d5))
          ∧ a = "momentum_confirm")
       ∨ (((geOrNegInf (deltaOiPct item.d5) cfg.shockOi15mPct
              || decide (cfg.shockAbs15mPricePct ≤ absOrZero (deltaPricePct item.d5)))
            || (geOrNegInf (deltaOiPct item.d15) cfg.shockOi15mPct
              || decide (cfg.shockAbs15mPricePct ≤ absOrZero (deltaPricePct item.d15)))) = true
          ∧ a = "positioning_shock")) := by
  rcases ls with _ | s
  · have h1 : (evaluateCriteria cfg item none mode).1 =
        (if cfg.momentumAbs5mPricePct ≤ absOrZero (deltaPricePct item.d5)
          then ["momentum_confirm"] else [])
        ++ (if ((geOrNegInf (deltaOiPct item.d5) cfg.shockOi15mPct
              || decide (cfg.shockAbs15mPricePct ≤ absOrZero (deltaPricePct item.d5)))
            || (geOrNegInf (deltaOiPct item.d15) cfg.shockOi15mPct
              || decide (cfg.shockAbs15mPricePct ≤ absOrZero (deltaPricePct item.d15)))) = true
          then ["positioning_shock"] else []) := rfl
    rw [h1]
    simp only [List.mem_append, mem_ite_singleton]
    constructor
    · intro h
      tauto
    · rintro (⟨⟨s, hs, _⟩, _⟩ | h | h)
      · cases hs
      · tauto
      · tauto
  · have h1 : (evaluateCriteria cfg item (some s) mode).1 =
        ((if s ≠ "" ∧ (evaluateCriteria cfg item (some s) mode).2 ≠ s
          then ["setup_flip"] else [])
        ++ (if cfg.momentumAbs5mPricePct ≤ absOrZero (deltaPricePct item.d5)
          then ["momentum_confirm"] else []))
        ++ (if ((geOrNegInf (deltaOiPct item.d5) cfg.shockOi15mPct
              || decide (cfg.shockAbs15mPricePct ≤ absOrZero (deltaPricePct item.d5)))
            || (geOrNegInf (deltaOiPct item.d15) cfg.shockOi15mPct
              || decide (cfg.shockAbs15mPricePct ≤ absOrZero (deltaPricePct item.d15)))) = true
          then ["positioning_shock"] else []) := rfl
    rw [h1]
    simp only [List.mem_append, mem_ite_singleton, Option.some.injEq]
    constructor
    · rintro ((⟨hc, ha⟩ | h) | h)
      · exact Or.inl ⟨⟨s, rfl, hc.1, hc.2⟩, ha⟩
      · tauto
      · tauto
    · rintro (⟨⟨s2, hs2, hc⟩, ha⟩ | h | h)
      · cases hs2
        exact Or.inl (Or.inl ⟨hc, ha⟩)
      · tauto
      · tauto

/-- C3: the detection trigger set is exactly as specified: setup_flip
fires iff a stored last state exists and differs from the current state
of the mode detection timeframe (5m for scalp, 15m for swing and
build); momentum_confirm fires iff the 5m price change exists and its
absolute value reaches MOMENTUM_MIN, with no lean-alignment condition;
positioning_shock fires iff on the 5m or the 15m timeframe the OI
change reaches SHOCK_OI_MIN or the absolute price change reaches
SHOCK_PRICE_MIN, an OR within each timeframe; and no other trigger
exists. -/
theorem detection_triggers_exact (cfg : DetectCfg) (item : EvalItem) (ls : Option String)
    (mode : String) (hm : 0 < cfg.momentumAbs5mPricePct) (hs : 0 < cfg.shockAbs15mPricePct) :
    (("setup_flip" ∈ (evaluateCriteria cfg item ls mode).1)
       ↔ ∃ s, ls = some s ∧ s ≠ "" ∧ (evaluateCriteria cfg item ls mode).2 ≠ s) ∧
    (("momentum_confirm" ∈ (evaluateCriteria cfg item ls mode).1)
       ↔ ∃ v, deltaPricePct item.d5 = some v ∧ cfg.momentumAbs5mPricePct ≤ |v|) ∧
    (("positioning_shock" ∈ (evaluateCriteria cfg item ls mode).1)
       ↔ (shockSpec cfg item.d5 ∨ shockSpec cfg item.d15)) ∧
    (∀ c ∈ (evaluateCriteria cfg item ls mode).1,
       c = "setup_flip" ∨ c = "momentum_confirm" ∨ c = "positioning_shock") ∧
    ((evaluateCriteria cfg item ls "scalp").2 = curStateOf item.d5 ∧
     (evaluateCriteria cfg item ls "swing").2 = curStateOf item.d15 ∧
     (evaluateCriteria cfg item ls "build").2 = curStateOf item.d15) := by
  have hshock : (((geOrNegInf (deltaOiPct item.d5) cfg.shockOi15mPct
          || decide (cfg.shockAbs15mPricePct ≤ absOrZero (deltaPricePct item.d5)))
        || (geOrNegInf (deltaOiPct item.d15) cfg.shockOi15mPct
          || decide (cfg.shockAbs15mPricePct ≤ absOrZero (deltaPricePct item.d15)))) = true)
      ↔ (shockSpec cfg item.d5 ∨ shockSpec cfg item.d15) := by
    simp only [Bool.or_eq_true, decide_eq_true_eq, geOrNegInf_iff, shockSpec,
      absOrZero_ge_iff _ _ hs]
  refine ⟨?_, ?_, ?_, ?_, ?_, ?_, ?_⟩
  · rw [evaluateCriteria_mem]
    have d2 : ¬ (("setup_flip" : String) = "momentum_confirm") := by decide
    have d3 : ¬ (("setup_flip" : String) = "positioning_shock") := by decide
    simp [d2, d3]
  · rw [evaluateCriteria_mem]
    have d1 : ¬ (("momentum_confirm" : String) = "setup_flip") := by decide
    have d3 : ¬ (("momentum_confirm" : String) = "positioning_shock") := by decide
    rw [absOrZero_ge_iff _ _ hm] at *
    simp [d1, d3, absOrZero_ge_iff _ _ hm]
  · rw [evaluateCriteria_mem]
    have d1 : ¬ (("positioning_shock" : String) = "setup_flip") := by decide
    have d2 : ¬ (("positioning_shock" : String) = "momentum_confirm") := by decide
    simp only [d1, d2, and_false, false_or, or_false, and_true, hshock]
  · intro c hc
    rw [evaluateCriteria_mem] at hc
    rcases hc with ⟨_, h⟩ | ⟨_, h⟩ | ⟨_, h⟩
    · exact Or.inl h
    · exact Or.inr (Or.inl h)
    · exact Or.inr (Or.inr h)
  · rw [evaluateCriteria_snd, if_pos (by decide)]
  · rw [evaluateCriteria_snd, if_neg (by decide)]
  · rw [evaluateCriteria_snd, if_neg (by decide)]

/-- Concrete instance of the momentum trigger at the default thresholds:
an item with a 0.12 percent 5m price change fires momentum_confirm. -/
theorem detection_triggers_exact_witness :
    (0:ℚ) < defaultDetectCfg.momentumAbs5mPricePct ∧
    ("momentum_confirm" ∈ (evaluateCriteria defaultDetectCfg itemMomentum none "scalp").1
      ↔ ∃ v, deltaPricePct itemMomentum.d5 = some v
          ∧ defaultDetectCfg.momentumAbs5mPricePct ≤ |v|) := by
  refine ⟨by norm_num [defaultDetectCfg, mkRat], ?_⟩
  exact (detection_triggers_exact defaultDetectCfg itemMomentum none "scalp"
    (by norm_num [defaultDetectCfg, mkRat]) (by norm_num [defaultDetectCfg, mkRat])).2.1

end Gateway.Alert

namespace Gateway.Alert

/-- Running a trace splits along list concatenation. -/
theorem runLastSent_append (cfg : CooldownCfg) (init : Option ℚ)
    (a b : List EvalInvocation) :
    runLastSent cfg init (a ++ b) = runLastSent cfg (runLastSent cfg init a) b := by
  induction a generalizing init with
  | nil => rfl
  | cons x xs ih =>
    simp only [List.cons_append, runLastSent]
    exact ih (stepLastSent cfg init x)

/-- After any trace the stored lastSentAt is either untouched or the
clock of one of the invocations of the trace. -/
theorem runLastSent_origin (cfg : CooldownCfg) (mid : List EvalInvocation) :
    ∀ lastSent, runLastSent cfg lastSent mid = lastSent
      ∨ ∃ inv ∈ mid, runLastSent cfg lastSent mid = some inv.now := by
  induction mid with
  | nil => exact fun _ => Or.inl rfl
  | cons x xs ih =>
    intro l
    have hx : runLastSent cfg l (x :: xs) = runLastSent cfg (stepLastSent cfg l x) xs := rfl
    rcases ih (stepLastSent cfg l x) with h | ⟨inv, hmem, he⟩
    · by_cases hw : writesLastSent cfg l x = true
      · right
        refine ⟨x, List.mem_cons_self x xs, ?_⟩
        rw [hx, h, stepLastSent, if_pos hw]
      · left
        rw [hx, h, stepLastSent, if_neg hw]
    · right
      exact ⟨inv, List.mem_cons_of_mem x hmem, by rw [hx, he]⟩

/-- C1: cooldown separation.  Take any trace of evaluator invocations
for one instrument: a prefix pre, an invocation that notified, a middle
stretch mid whose clocks are not before that notification, and a later
invocation that notified without force.  Then the two notifications are
at least cooldownMs apart.  In addition: a non-forced invocation within
the cooldown window of a stored lastSentAt never notifies; every
invocation that passes the write condition sets lastSentAt to its own
clock; and the lastSentAt key is built from the instrument alone, so
the cooldown state is shared across all modes. -/
theorem cooldown_min_separation (cfg : CooldownCfg) (init : Option ℚ)
    (pre mid : List EvalInvocation) (invI invJ : EvalInvocation)
    (hmono : ∀ inv ∈ mid, invI.now ≤ inv.now)
    (hI : notifies cfg (runLastSent cfg init pre) invI = true)
    (hJ : notifies cfg (runLastSent cfg init (pre ++ invI :: mid)) invJ = true)
    (hforce : invJ.force = false) :
    cfg.cooldownMs ≤ invJ.now - invI.now ∧
    (∀ t inv, inv.force = false → inv.now - t < cfg.cooldownMs →
      notifies cfg (some t) inv = false) ∧
    (∀ lastSent inv, writesLastSent cfg lastSent inv = true →
      stepLastSent cfg lastSent inv = some inv.now) ∧
    (∀ instId, lastSentAtKey instId = "alert:lastSentAt:" ++ instId) := by
  have hwI : writesLastSent cfg (runLastSent cfg init pre) invI = true := by
    have h := hI
    unfold notifies at h
    exact (Bool.and_eq_true_iff.mp h).1
  have hstep : stepLastSent cfg (runLastSent cfg init pre) invI = some invI.now := by
    rw [stepLastSent, if_pos hwI]
  have hrunJ : runLastSent cfg init (pre ++ invI :: mid)
      = runLastSent cfg (some invI.now) mid := by
    rw [runLastSent_append]
    show runLastSent cfg (stepLastSent cfg (runLastSent cfg init pre) invI) mid = _
    rw [hstep]
  obtain ⟨t, ht, hle⟩ : ∃ t, runLastSent cfg init (pre ++ invI :: mid) = some t
      ∧ invI.now ≤ t := by
    rw [hrunJ]
    rcases runLastSent_origin cfg mid (some invI.now) with h | ⟨inv, hmem, he⟩
    · exact ⟨invI.now, h, le_refl _⟩
    · exact ⟨inv.now, he, hmono inv hmem⟩
  rw [ht] at hJ
  have hwJ : writesLastSent cfg (some t) invJ = true := by
    unfold notifies at hJ
    exact (Bool.and_eq_true_iff.mp hJ).1
  have hnb : cooldownBlocks cfg (some t) invJ = false := by
    unfold writesLastSent at hwJ
    have h1 := (Bool.and_eq_true_iff.mp (Bool.and_eq_true_iff.mp hwJ).1).1
    cases hb : cooldownBlocks cfg (some t) invJ
    · rfl
    · rw [hb] at h1
      cases h1
  have hnc : ¬ (invJ.now - t < cfg.cooldownMs) := by
    unfold cooldownBlocks at hnb
    rw [hforce] at hnb
    simpa using hnb
  refine ⟨by linarith [not_lt.mp hnc], ?_, ?_, ?_⟩
  · intro t2 inv hf hlt
    unfold notifies writesLastSent cooldownBlocks
    rw [hf]
    simp [hlt]
  · intro l inv hw
    rw [stepLastSent, if_pos hw]
  · intro instId
    rfl

/-- Concrete instance of the cooldown separation: two notifying
invocations exactly one default cooldown window (20 minutes, 1200000
ms) apart, the later one not forced. -/
theorem cooldown_min_separation_witness :
    (⟨1200000⟩ : CooldownCfg).cooldownMs
      ≤ (⟨1200000, false, false, true, true⟩ : EvalInvocation).now
        - (⟨0, false, false, true, true⟩ : EvalInvocation).now := by
  have h := cooldown_min_separation ⟨1200000⟩ none [] []
    ⟨0, false, false, true, true⟩ ⟨1200000, false, false, true, true⟩
    (by intro inv hmem; cases hmem)
    (by norm_num [notifies, writesLastSent, cooldownBlocks, runLastSent, stepLastSent])
    (by norm_num [notifies, writesLastSent, cooldownBlocks, runLastSent, stepLastSent])
    rfl
  exact h.1

end Gateway.Alert
